import Mathlib

/-!  Shallow embedding of the Discord game/status monitor bot
(src/game_monitor.py, src/status_bot.py).

Conventions of the embedding:
* a Python dict lookup of a possibly-missing string field is an
  `Option String`; Python truthiness of such a value (`None` and the
  empty string are falsy) is `strOr` / `truthy`;
* a Python `set` of strings is a `Finset String`; Python `sorted` on it
  is `Finset.sort (· ≤ ·)` (both orders are lexicographic on code
  points);
* network and chat-platform effects are made explicit: a fetch result
  is a value of an outcome type, a delivery attempt is an element of an
  action list, and an exception that escapes a Python function is an
  `Except` error. -/

namespace Bot

/-- Characters Python `str.strip()` removes (ASCII whitespace; the model
restricts Python whitespace handling to ASCII). -/
def pyWhitespace (c : Char) : Bool :=
  c = ' ' || c = '\t' || c = '\n' || c = '\r' || c = '\x0b' || c = '\x0c'

/-- Python `s.strip()`. -/
def pyStrip (s : String) : String :=
  String.mk (((s.data.dropWhile pyWhitespace).reverse.dropWhile pyWhitespace).reverse)

/-- ASCII lower-casing of one character. -/
def lowerChar (c : Char) : Char :=
  if 65 ≤ c.toNat && c.toNat ≤ 90 then Char.ofNat (c.toNat + 32) else c

/-- Python `s.lower()` (ASCII model). -/
def pyLower (s : String) : String :=
  String.mk (s.data.map lowerChar)

/-- Python `s.endswith(suffix)`. -/
def endsWithStr (s suf : String) : Bool :=
  decide (suf.data.length ≤ s.data.length)
    && decide (s.data.drop (s.data.length - suf.data.length) = suf.data)

/-- Drop the last `n` characters. -/
def dropRightStr (s : String) (n : Nat) : String :=
  String.mk (s.data.take (s.data.length - n))

/-- Keep the first `n` characters, Python `s[:n]`. -/
def takeStr (n : Nat) (s : String) : String :=
  String.mk (s.data.take n)

/-- Does `pat` occur as a contiguous prefix of `l`? -/
def prefixAt : List Char → List Char → Bool
  | [], _ => true
  | _ :: _, [] => false
  | p :: ps, c :: cs => p == c && prefixAt ps cs

def containsSubChars (pat : List Char) : List Char → Bool
  | [] => pat.isEmpty
  | c :: cs => prefixAt pat (c :: cs) || containsSubChars pat cs

/-- Python substring containment `pat in s`. -/
def containsSub (s pat : String) : Bool :=
  containsSubChars pat.data s.data

/-- Python `sep.join(parts)`. -/
def joinWith (sep : String) : List String → String
  | [] => ""
  | [x] => x
  | x :: y :: rest => x ++ sep ++ joinWith sep (y :: rest)

/-- Python `a or d` for an optional string `a` and a string default `d`
(`None` and the empty string are falsy). -/
def strOr (a : Option String) (d : String) : String :=
  match a with
  | some s => if s = "" then d else s
  | none => d

/-- Python `a or b` for two optional strings, keeping the optional result
(used for the image field chain). -/
def optOr (a b : Option String) : Option String :=
  match a with
  | some s => if s = "" then b else some s
  | none => b

/-- Python truthiness of an optional string. -/
def truthy : Option String → Bool
  | some s => s != ""
  | none => false

/-- One element of the games.json array, restricted to the fields that
game_monitor.py reads (each a possibly missing string). -/
structure Game where
  title : Option String
  name : Option String
  appid : Option String
  id : Option String
  img : Option String
  image : Option String
  header_image : Option String
deriving DecidableEq

/-- game_monitor.py line 221: `(g.get("title") or g.get("name") or "").strip()`. -/
def rawGameName (g : Game) : String :=
  pyStrip (strOr g.title (strOr g.name ""))

/-- game_monitor.py line 222: `str(g.get("appid") or g.get("id") or "N/A")`. -/
def gameAppid (g : Game) : String :=
  strOr g.appid (strOr g.id "N/A")

/-- game_monitor.py line 223: `g.get("img") or g.get("image") or g.get("header_image") or None`. -/
def gameImg (g : Game) : Option String :=
  optOr g.img (optOr g.image g.header_image)

/-- game_monitor.py lines 224-226: the item key is the stripped title/name,
falling back to a synthetic name built from the appid when it is empty. -/
def gameKey (g : Game) : String :=
  let n := rawGameName g
  if n = "" then "Unknown Game (" ++ gameAppid g ++ ")" else n

/-- The value stored in the `mapping` dict for a key (line 228). -/
structure GameEntry where
  name : String
  appid : String
  img : Option String
deriving DecidableEq

def gameEntry (g : Game) : GameEntry :=
  ⟨gameKey g, gameAppid g, gameImg g⟩

/-- The Python dict `mapping` is filled by `mapping[key] = entry` in list
order, so a lookup returns the entry of the last game bearing that key
(or `none` when no game does). -/
def mappingGet (games : List Game) (k : String) : Option GameEntry :=
  (games.reverse.find? (fun g => gameKey g == k)).map gameEntry

/-- game_monitor.py line 227: the set `current_keys`. -/
def currentKeys (games : List Game) : Finset String :=
  (games.map gameKey).toFinset

/-- The mutable monitor state persisted in game_config.json: the three
seen-sets and the three configured channel ids (lines 27-34). -/
structure MonitorState where
  seen_new : Finset String
  seen_update : Finset String
  seen_fixed : Finset String
  channel_id_new : Option Nat
  channel_id_update : Option Nat
  channel_id_fixed : Option Nat
deriving DecidableEq

/-- Python truthiness of a configured channel id (`None` and `0` falsy). -/
def chanTruthy : Option Nat → Bool
  | none => false
  | some n => n != 0

/-- Python `sorted` on a set of strings: ascending lexicographic order. -/
def sortedKeys (s : Finset String) : List String :=
  s.sort (· ≤ ·)

/-- game_monitor.py line 230: `new_keys = current_keys - self.seen_new`. -/
def newDiff (games : List Game) (st : MonitorState) : Finset String :=
  currentKeys games \ st.seen_new

/-- game_monitor.py line 231: `update_keys = current_keys - self.seen_update`. -/
def updateDiff (games : List Game) (st : MonitorState) : Finset String :=
  currentKeys games \ st.seen_update

/-- Observable outcome of one run of `process_games_new_updated`:
the keys handed to `safe_send` on the NEW channel in posting order, the
same for the UPDATED channel, the state afterwards, and whether
`save_config` was called. -/
structure GamesCycleResult where
  announcedNew : List String
  announcedUpdated : List String
  state : MonitorState
  saved : Bool
deriving DecidableEq

/-- game_monitor.py lines 212-262, `process_games_new_updated`, given the
already-fetched games list.  `if not games: return` is the `isEmpty`
branch; the NEW loop posts `sorted(new_keys)` skipping keys whose mapping
entry is missing; the UPDATED loop additionally skips keys in `new_keys`;
both seen-sets are then extended and `save_config` runs when either diff
was non-empty. -/
def process_games_new_updated (games : List Game) (st : MonitorState) :
    GamesCycleResult :=
  if games.isEmpty then ⟨[], [], st, false⟩
  else
    let new_keys := newDiff games st
    let update_keys := updateDiff games st
    let announcedNew :=
      if chanTruthy st.channel_id_new = true ∧ new_keys.Nonempty then
        (sortedKeys new_keys).filter (fun k => (mappingGet games k).isSome)
      else []
    let announcedUpdated :=
      if chanTruthy st.channel_id_update = true ∧ update_keys.Nonempty then
        (sortedKeys update_keys).filter
          (fun k => !(decide (k ∈ new_keys)) && (mappingGet games k).isSome)
      else []
    let seen_new' :=
      if new_keys.Nonempty then st.seen_new ∪ new_keys else st.seen_new
    let seen_update' :=
      if update_keys.Nonempty then st.seen_update ∪ update_keys else st.seen_update
    ⟨announcedNew, announcedUpdated,
     { st with seen_new := seen_new', seen_update := seen_update' },
     decide (new_keys.Nonempty ∨ update_keys.Nonempty)⟩

/-- A fixes item as `process_fixes` reads it: a dict with possibly
missing string fields (lines 272-274 probe `title`, `name`, `download`,
`url`, `size`). -/
structure FixItem where
  title : Option String
  name : Option String
  download : Option String
  url : Option String
  size : Option String
deriving DecidableEq

/-- game_monitor.py line 272: `(f.get("title") or f.get("name") or "").strip()`. -/
def fixKeyOf (f : FixItem) : String :=
  pyStrip (strOr f.title (strOr f.name ""))

/-- The value stored in the fixes `mapping` dict (line 279). -/
structure FixEntry where
  title : String
  download : String
  size : String
deriving DecidableEq

def fixEntryOf (f : FixItem) : FixEntry :=
  ⟨fixKeyOf f, strOr f.download (strOr f.url ""), strOr f.size ""⟩

/-- game_monitor.py lines 269-278: only items with a non-empty stripped
name contribute a key (`if not name: continue`). -/
def fixKeys (fixes : List FixItem) : Finset String :=
  ((fixes.map fixKeyOf).filter (fun n => n != "")).toFinset

/-- Lookup in the fixes `mapping` dict: the entry of the last item with
non-empty name bearing that key. -/
def fixMappingGet (fixes : List FixItem) (k : String) : Option FixEntry :=
  ((fixes.filter (fun f => fixKeyOf f != "")).reverse.find?
    (fun f => fixKeyOf f == k)).map fixEntryOf

/-- game_monitor.py line 281: `new_fixed = current_titles - self.seen_fixed`. -/
def fixedDiff (fixes : List FixItem) (st : MonitorState) : Finset String :=
  fixKeys fixes \ st.seen_fixed

/-- Observable outcome of one run of `process_fixes`. -/
structure FixesCycleResult where
  announcedFixed : List String
  state : MonitorState
  saved : Bool
deriving DecidableEq

/-- game_monitor.py lines 264-294, `process_fixes`, given the
already-fetched fixes list.  `if not fixes: return` is the `isEmpty`
branch; the posting loop runs over `sorted(new_fixed)` when the fixed
channel is truthy; `seen_fixed` is extended and `save_config` runs only
when the diff was non-empty. -/
def process_fixes (fixes : List FixItem) (st : MonitorState) :
    FixesCycleResult :=
  if fixes.isEmpty then ⟨[], st, false⟩
  else
    let new_fixed := fixedDiff fixes st
    let announced :=
      if chanTruthy st.channel_id_fixed = true ∧ new_fixed.Nonempty then
        (sortedKeys new_fixed).filter (fun k => (fixMappingGet fixes k).isSome)
      else []
    if new_fixed.Nonempty then
      ⟨announced, { st with seen_fixed := st.seen_fixed ∪ new_fixed }, true⟩
    else ⟨announced, st, false⟩

/-- Outcome of the HTTP interaction in `fetch_games`
(game_monitor.py lines 87-108). -/
inductive FetchGamesOutcome
  | httpStatus (code : Nat)
  | notAList
  | raised
  | ok (games : List Game)
deriving DecidableEq

/-- game_monitor.py `fetch_games`: every failure path (non-200 status,
non-list JSON, any exception) returns the empty list; only a JSON array
is passed through. -/
def fetch_games_result : FetchGamesOutcome → List Game
  | .httpStatus _ => []
  | .notAList => []
  | .raised => []
  | .ok games => games

/-- The fields the fixes-page regexes can extract from one
`file-item` anchor block (game_monitor.py lines 125-135): an optional
href, an optional raw file-name text, an optional file-size text. -/
structure Anchor where
  href : Option String
  raw_name : Option String
  size_text : Option String
deriving DecidableEq

/-- game_monitor.py line 139 / 145:
`re.sub(r".(zip|rar|7z|tar.gz)$", "", s, flags=re.I)` — drop one known
archive extension at the end, case-insensitively. -/
def stripArchiveExt (s : String) : String :=
  let ls := pyLower s
  if endsWithStr ls ".tar.gz" then dropRightStr s 7
  else if endsWithStr ls ".zip" then dropRightStr s 4
  else if endsWithStr ls ".rar" then dropRightStr s 4
  else if endsWithStr ls ".7z" then dropRightStr s 3
  else s

/-- Python `s.rstrip("/")`. -/
def rstripSlash (s : String) : String :=
  String.mk ((s.data.reverse.dropWhile (fun c => c = '/')).reverse)

/-- Python `re.sub("%20", " ", s)`: replace every occurrence of `%20`
by a space, left to right, non-overlapping. -/
def replace20 : List Char → List Char
  | '%' :: '2' :: '0' :: rest => ' ' :: replace20 rest
  | c :: rest => c :: replace20 rest
  | [] => []

/-- game_monitor.py lines 143-145: title derived from the href — last
path segment (`href.rstrip("/").split("/")[-1]`, i.e. the maximal
slash-free suffix after the rstrip), `%20` replaced by a space, archive
extension stripped. -/
def hrefTitle (href : String) : String :=
  stripArchiveExt (String.mk (replace20 ((rstripSlash href).data.reverse.takeWhile (fun c => c != '/')).reverse))

/-- game_monitor.py lines 150-151: make the href absolute when it starts
with a slash; a missing href becomes the empty string (line 152). -/
def absolutizeHref (href : Option String) : String :=
  match href with
  | some h => if h.data.head? == some '/' then "https://generator.ryuu.lol" ++ h else h
  | none => ""

/-- game_monitor.py lines 126-152: turn one anchor block into a fixes
item, or skip it.  A truthy (present, non-empty after strip) file-name
gives the title; otherwise a truthy href gives a fallback title;
otherwise the block is skipped (`continue`).  A missing size becomes
the empty string (`size or ""`). -/
def extractItem (a : Anchor) : Option FixEntry :=
  let rawName := a.raw_name.map pyStrip
  let size := a.size_text.map pyStrip
  if truthy rawName then
    some ⟨pyStrip (stripArchiveExt (rawName.getD "")), absolutizeHref a.href,
          strOr size ""⟩
  else if truthy a.href then
    some ⟨hrefTitle (a.href.getD ""), absolutizeHref a.href, strOr size ""⟩
  else none

/-- game_monitor.py lines 154-161: dedupe by title, first occurrence
wins, order preserved. -/
def dedupeByTitle : List FixEntry → List String → List FixEntry
  | [], _ => []
  | i :: rest, seen =>
    if i.title ∈ seen then dedupeByTitle rest seen
    else i :: dedupeByTitle rest (i.title :: seen)

/-- game_monitor.py `fetch_fixes` parsing stage, lines 122-162: extract
each anchor block, then dedupe by title preserving first-seen order. -/
def fetch_fixes_parse (anchors : List Anchor) : List FixEntry :=
  dedupeByTitle (anchors.filterMap extractItem) []

/-- Messages a peek command can emit (game_monitor.py lines 444-503). -/
inductive PeekMsg
  | failEphemeral (text : String)
  | noneFound
  | gameEmbed (key : String)
  | overflowNote (total : Nat)
  | fixEmbed (title download : Option String) (size : String)
  | allCount (n : Nat)
deriving DecidableEq

/-- game_monitor.py line 468: the list of unseen keys in snapshot
order, `[k for k in current_keys if k not in monitor.seen_new]`
(here `current_keys` is the list built in loop order, line 465). -/
def newgame_keys (games : List Game) (st : MonitorState) : List String :=
  (games.map gameKey).filter (fun k => !(decide (k ∈ st.seen_new)))

/-- game_monitor.py lines 445-481, the `/newgame` handler output: an
ephemeral failure when the fetch came back empty, a none-found note when
nothing is unseen, otherwise an embed per key of `new_keys[:10]` plus a
count note when more than 10 exist. -/
def newgame_messages (games : List Game) (st : MonitorState) : List PeekMsg :=
  if games.isEmpty then [.failEphemeral "Failed to load game list."]
  else
    let nk := newgame_keys games st
    if nk.isEmpty then [.noneFound]
    else
      ((nk.take 10).map PeekMsg.gameEmbed)
        ++ (if 10 < nk.length then [.overflowNote nk.length] else [])

/-- game_monitor.py lines 486-501, the `/fixegame` handler output: an
ephemeral failure when the fetch came back empty, otherwise one embed
per fix (`f.get("title")`, `f.get("download")`, `f.get("size", "")`)
followed by a total-count note. -/
def fixegame_messages (fixes : List FixItem) : List PeekMsg :=
  if fixes.isEmpty then [.failEphemeral "Failed to load fixes."]
  else
    (fixes.map (fun f => PeekMsg.fixEmbed f.title f.download (f.size.getD "")))
      ++ [.allCount fixes.length]

/-- A manual peek invocation with its fetched snapshot. -/
inductive PeekCall
  | newgamePeek (games : List Game)
  | fixegamePeek (fixes : List FixItem)
deriving DecidableEq

/-- Running one peek handler over the monitor state.  Neither handler
assigns to `monitor.seen_new` / `seen_update` / `seen_fixed` or calls
`save_config`, so the state passes through and the saved flag is false. -/
def runPeek (c : PeekCall) (st : MonitorState) :
    List PeekMsg × MonitorState × Bool :=
  match c with
  | .newgamePeek games => (newgame_messages games st, st, false)
  | .fixegamePeek fixes => (fixegame_messages fixes, st, false)

/-- Running a sequence of peek invocations, threading the state;
the Bool records whether any invocation called `save_config`. -/
def peekSeqState : List PeekCall → MonitorState → MonitorState × Bool
  | [], st => (st, false)
  | c :: cs, st =>
    let r := runPeek c st
    let rest := peekSeqState cs r.2.1
    (rest.1, r.2.2 || rest.2)

/-- game_monitor.py line 405: `g.get("title") or g.get("name") or "Unknown Game"`. -/
def gamelistTitle (g : Game) : String :=
  strOr g.title (strOr g.name "Unknown Game")

/-- game_monitor.py line 406: `g.get("appid") or g.get("id") or "N/A"`. -/
def gamelistAppid (g : Game) : String :=
  strOr g.appid (strOr g.id "N/A")

/-- game_monitor.py line 407: one formatted listing line. -/
def formatLine (g : Game) : String :=
  "● **" ++ gamelistTitle g ++ "** — `" ++ gamelistAppid g ++ "`"

/-- game_monitor.py line 410:
`[formatted[i:i+n] for i in range(0, len(formatted), n)]`. -/
def chunksOf (n : Nat) (l : List String) : List (List String) :=
  (List.range ((l.length + n - 1) / n)).map (fun i => (l.drop (i * n)).take n)

/-- One page embed of the `/gamelist` output. -/
structure ListEmbed where
  title : String
  description : String
deriving DecidableEq

/-- game_monitor.py lines 403-421: format every game, chunk into groups
of 80 lines, and build one embed per chunk with a page-numbered title
and the joined text truncated to 4096 characters. -/
def gamelistEmbeds (games : List Game) : List ListEmbed :=
  let formatted := games.map formatLine
  let cs := chunksOf 80 formatted
  cs.enum.map (fun p =>
    ⟨"📃 Game List (" ++ toString games.length ++ " total) — Page "
        ++ toString (p.1 + 1) ++ "/" ++ toString cs.length,
      takeStr 4096 (joinWith "\n" p.2)⟩)

/-- Chat actions the `/gamelist` handler performs in order. -/
inductive ListAction
  | sendEphemeralFail
  | sendEmbed (e : ListEmbed)
  | sleep (secs : Nat)
  | editEmbed (e : ListEmbed)
deriving DecidableEq

def ListAction.isSend : ListAction → Bool
  | .sendEmbed _ => true
  | _ => false

/-- game_monitor.py lines 395-433, the `/gamelist` handler: on an empty
fetch an ephemeral failure; otherwise the first page embed is sent as
one new message and every further page is delivered by editing that
same message after a 2 second sleep.  (With a non-empty games list the
embeds list is non-empty; the `[]` arm mirrors the fact that Python
would fault on `embeds[0]` and is unreachable.) -/
def gamelist_actions (games : List Game) : List ListAction :=
  if games.isEmpty then [.sendEphemeralFail]
  else
    match gamelistEmbeds games with
    | [] => []
    | e0 :: rest =>
      .sendEmbed e0 ::
        (rest.map (fun e => [ListAction.sleep 2, ListAction.editEmbed e])).flatten

/-- Outcome of the HTTP interaction inside `fetch_status`
(status_bot.py lines 34-41): either some exception was raised while
requesting or parsing, or the page yielded a list of status-block
texts (possibly empty). -/
inductive StatusFetch
  | raised (msg : String)
  | page (blocks : List String)
deriving DecidableEq

/-- status_bot.py lines 46-60: the glyph for one status text. -/
def statusEmoji (t : String) : String :=
  let lo := pyLower t
  if containsSub lo "ok" then "✅"
  else if containsSub lo "maintenance" then "⚠️"
  else if containsSub lo "down" then "❌"
  else "ℹ️"

/-- status_bot.py lines 32-65, `fetch_status`: an exception is caught
and rendered as an error string; an empty block list yields the
could-not-find string; otherwise each block is stripped, classified and
numbered from 1, and the lines joined with newlines.  The function
never raises. -/
def fetch_status : StatusFetch → String
  | .raised m => "❌ Error fetching status: " ++ m
  | .page [] => "ℹ️ Could not find status blocks"
  | .page (b :: bs) =>
    joinWith "\n" (((b :: bs).enum).map (fun p =>
      let t := pyStrip p.2
      statusEmoji t ++ " Server " ++ toString (p.1 + 1) ++ ": " ++ t))

/-- An exception escaping a Python call into the chat platform. -/
inductive PyErr
  | forbidden
  | httpException (code : Nat)
  | other (msg : String)
deriving DecidableEq

/-- Outcome of one `msg.edit` attempt inside the countdown loop. -/
inductive EditOutcome
  | ok
  | forbiddenCaught
  | raised (e : PyErr)
deriving DecidableEq

/-- status_bot.py line 12: `CHECK_INTERVAL = 5 * 60`. -/
def CHECK_INTERVAL : Nat := 5 * 60

/-- The environment of one `send_visual_status` call: whether the
channel id resolves, the first fetch outcome, the result of the
initial `channel.send`, the outcome of the `msg.edit` at each remaining
value of the countdown, the second fetch outcome, and the result of the
final `msg.edit`. -/
structure VisualEnv where
  channelFound : Bool
  fetch1 : StatusFetch
  sendResult : Except PyErr Unit
  editAt : Nat → EditOutcome
  fetch2 : StatusFetch
  finalEditResult : Except PyErr Unit

/-- status_bot.py lines 90-99, the countdown loop: each iteration
attempts an edit; `discord.errors.Forbidden` is caught and returns from
the function early (`.ok false`), any other exception propagates, and
when `remaining` reaches 0 the loop completes (`.ok true`). -/
def countdown (edit : Nat → EditOutcome) : Nat → Except PyErr Bool
  | 0 => .ok true
  | n + 1 =>
    match edit (n + 1) with
    | .ok => countdown edit n
    | .forbiddenCaught => .ok false
    | .raised e => .error e

/-- status_bot.py lines 69-106, `send_visual_status`, returning the
control-flow result (an uncaught exception escapes as `.error`) paired
with the list of embed descriptions that reached the channel (the
initial send, then the in-place content update after the countdown).
An unresolved channel logs and returns; a raised `channel.send`
propagates with nothing posted; a Forbidden edit ends the call early;
a completed countdown re-fetches and edits the description in place. -/
def send_visual_status_run (env : VisualEnv) :
    Except PyErr Unit × List String :=
  if env.channelFound = false then (.ok (), [])
  else
    let status_msg := fetch_status env.fetch1
    match env.sendResult with
    | .error e => (.error e, [])
    | .ok _ =>
      match countdown env.editAt CHECK_INTERVAL with
      | .error e => (.error e, [status_msg])
      | .ok false => (.ok (), [status_msg])
      | .ok true =>
        let status_msg2 := fetch_status env.fetch2
        match env.finalEditResult with
        | .error e => (.error e, [status_msg])
        | .ok _ => (.ok (), [status_msg, status_msg2])

/-- status_bot.py lines 109-113, the body of `status_loop`: iterate the
configured (guild, channel) entries calling `send_visual_status` with
no surrounding try/except, so the first escaping exception propagates
out of the cycle body. -/
def status_loop_run : List VisualEnv → Except PyErr Unit
  | [] => .ok ()
  | env :: rest =>
    match (send_visual_status_run env).1 with
    | .error e => .error e
    | .ok _ => status_loop_run rest

/-- game_monitor.py lines 302-308, the body of `monitor_loop`: the whole
cycle runs inside `try ... except Exception`, so whatever the cycle
does — finish or raise — the body returns normally (the error is only
printed). -/
def monitor_loop_body (r : Except PyErr Unit) : Except PyErr Unit :=
  match r with
  | .ok _ => .ok ()
  | .error _ => .ok ()

/-! ### Helper lemmas about the games pipeline -/

theorem mem_currentKeys {games : List Game} {k : String} :
    k ∈ currentKeys games ↔ ∃ g ∈ games, gameKey g = k := by
  simp [currentKeys, List.mem_toFinset, List.mem_map]

theorem games_isEmpty_eq_false {games : List Game} {k : String}
    (h : k ∈ currentKeys games) : games.isEmpty = false := by
  cases games with
  | nil => simp [currentKeys] at h
  | cons g t => rfl

theorem mappingGet_isSome {games : List Game} {k : String}
    (h : k ∈ currentKeys games) : (mappingGet games k).isSome = true := by
  rcases mem_currentKeys.mp h with ⟨g, hg, hk⟩
  have hfind : (games.reverse.find? (fun g => gameKey g == k)).isSome = true :=
    List.find?_isSome.mpr ⟨g, by simpa using hg, by simp [hk]⟩
  simpa [mappingGet] using hfind

theorem newDiff_subset_currentKeys {games : List Game} {st : MonitorState} {k : String}
    (h : k ∈ newDiff games st) : k ∈ currentKeys games :=
  (Finset.mem_sdiff.mp h).1

theorem updateDiff_subset_currentKeys {games : List Game} {st : MonitorState} {k : String}
    (h : k ∈ updateDiff games st) : k ∈ currentKeys games :=
  (Finset.mem_sdiff.mp h).1

theorem process_games_eq_of_ne_nil {games : List Game} {st : MonitorState}
    (hg : games.isEmpty = false) :
    process_games_new_updated games st =
      ⟨(if chanTruthy st.channel_id_new = true ∧ (newDiff games st).Nonempty then
          (sortedKeys (newDiff games st)).filter (fun k => (mappingGet games k).isSome)
        else []),
       (if chanTruthy st.channel_id_update = true ∧ (updateDiff games st).Nonempty then
          (sortedKeys (updateDiff games st)).filter
            (fun k => !(decide (k ∈ newDiff games st)) && (mappingGet games k).isSome)
        else []),
       { st with
         seen_new :=
           if (newDiff games st).Nonempty then st.seen_new ∪ newDiff games st
           else st.seen_new,
         seen_update :=
           if (updateDiff games st).Nonempty then st.seen_update ∪ updateDiff games st
           else st.seen_update },
       decide ((newDiff games st).Nonempty ∨ (updateDiff games st).Nonempty)⟩ := by
  rw [process_games_new_updated, if_neg (by simp [hg])]

theorem mem_fixKeys {fixes : List FixItem} {k : String} :
    k ∈ fixKeys fixes ↔ ∃ f ∈ fixes, fixKeyOf f = k ∧ fixKeyOf f ≠ "" := by
  simp only [fixKeys, List.mem_toFinset, List.mem_filter, List.mem_map, bne_iff_ne, ne_eq]
  constructor
  · rintro ⟨⟨f, hf, rfl⟩, hne⟩
    exact ⟨f, hf, rfl, hne⟩
  · rintro ⟨f, hf, rfl, hne⟩
    exact ⟨⟨f, hf, rfl⟩, hne⟩

theorem fixes_isEmpty_eq_false {fixes : List FixItem} {k : String}
    (h : k ∈ fixKeys fixes) : fixes.isEmpty = false := by
  cases fixes with
  | nil => simp [fixKeys] at h
  | cons f t => rfl

theorem fixMappingGet_isSome {fixes : List FixItem} {k : String}
    (h : k ∈ fixKeys fixes) : (fixMappingGet fixes k).isSome = true := by
  rcases mem_fixKeys.mp h with ⟨f, hf, hk, hne⟩
  have hfind :
      (((fixes.filter (fun f => fixKeyOf f != "")).reverse.find?
        (fun f => fixKeyOf f == k)).isSome) = true := by
    refine List.find?_isSome.mpr ⟨f, ?_, by simp [hk]⟩
    simp only [List.mem_reverse, List.mem_filter]
    exact ⟨hf, by simpa using hne⟩
  simpa [fixMappingGet] using hfind

theorem fixedDiff_subset_fixKeys {fixes : List FixItem} {st : MonitorState} {k : String}
    (h : k ∈ fixedDiff fixes st) : k ∈ fixKeys fixes :=
  (Finset.mem_sdiff.mp h).1

theorem process_fixes_eq_of_ne_nil {fixes : List FixItem} {st : MonitorState}
    (hg : fixes.isEmpty = false) :
    process_fixes fixes st =
      if (fixedDiff fixes st).Nonempty then
        ⟨(if chanTruthy st.channel_id_fixed = true ∧ (fixedDiff fixes st).Nonempty then
            (sortedKeys (fixedDiff fixes st)).filter
              (fun k => (fixMappingGet fixes k).isSome)
          else []),
         { st with seen_fixed := st.seen_fixed ∪ fixedDiff fixes st }, true⟩
      else
        ⟨(if chanTruthy st.channel_id_fixed = true ∧ (fixedDiff fixes st).Nonempty then
            (sortedKeys (fixedDiff fixes st)).filter
              (fun k => (fixMappingGet fixes k).isSome)
          else []),
         st, false⟩ := by
  rw [process_fixes, if_neg (by simp [hg])]

theorem process_fixes_eq_of_nonempty {fixes : List FixItem} {st : MonitorState}
    (hne : (fixedDiff fixes st).Nonempty) :
    process_fixes fixes st =
      ⟨(if chanTruthy st.channel_id_fixed = true ∧ (fixedDiff fixes st).Nonempty then
          (sortedKeys (fixedDiff fixes st)).filter
            (fun k => (fixMappingGet fixes k).isSome)
        else []),
       { st with seen_fixed := st.seen_fixed ∪ fixedDiff fixes st }, true⟩ := by
  obtain ⟨k, hk⟩ := hne
  have hg : fixes.isEmpty = false :=
    fixes_isEmpty_eq_false (fixedDiff_subset_fixKeys hk)
  rw [process_fixes_eq_of_ne_nil hg, if_pos ⟨k, hk⟩]

/-! ### The claims -/

/-- C1: for every snapshot fetched by the games pipeline and every
seen-set, when the NEW destination channel is configured (truthy) the
set of keys announced on the NEW feed equals the snapshot's item-key
set minus the seen-set — keys are stripped titles/names with the
synthetic fallback name when empty — and the announcement list is
strictly ascending in the lexicographic string order. -/
theorem c1_new_announce_eq_diff_sorted (games : List Game) (st : MonitorState)
    (h : chanTruthy st.channel_id_new = true) :
    ((process_games_new_updated games st).announcedNew).toFinset
        = currentKeys games \ st.seen_new
      ∧ List.Sorted (· < ·) (process_games_new_updated games st).announcedNew := by
  by_cases hg : games.isEmpty = true
  · have hnil : games = [] := by simpa using hg
    subst hnil
    constructor
    · simp [process_games_new_updated, currentKeys]
    · simp [process_games_new_updated]
  · have hg' : games.isEmpty = false := by simpa using hg
    rw [process_games_eq_of_ne_nil hg']
    by_cases hne : (newDiff games st).Nonempty
    · rw [if_pos ⟨h, hne⟩]
      have hfilter :
          (sortedKeys (newDiff games st)).filter
              (fun k => (mappingGet games k).isSome)
            = sortedKeys (newDiff games st) := by
        refine List.filter_eq_self.mpr (fun k hk => ?_)
        have hk' : k ∈ newDiff games st := by
          simpa [sortedKeys, Finset.mem_sort] using hk
        exact mappingGet_isSome (newDiff_subset_currentKeys hk')
      rw [hfilter]
      exact ⟨Finset.sort_toFinset _ _, Finset.sort_sorted_lt _⟩
    · rw [if_neg (fun hc => hne hc.2)]
      have : newDiff games st = ∅ := Finset.not_nonempty_iff_eq_empty.mp hne
      simp only [newDiff] at this
      constructor
      · simp [this]
      · simp

/-- Witness for C1 at a concrete input: two games, one already seen,
NEW channel configured. -/
theorem c1_witness :
    chanTruthy (MonitorState.mk {"Alpha"} ∅ ∅ (some 5) (some 6) none).channel_id_new = true
      ∧ (((process_games_new_updated
            [⟨some "Beta", none, some "2", none, none, none, none⟩,
             ⟨some "Alpha", none, some "1", none, none, none, none⟩]
            ⟨{"Alpha"}, ∅, ∅, some 5, some 6, none⟩).announcedNew).toFinset
          = currentKeys
              [⟨some "Beta", none, some "2", none, none, none, none⟩,
               ⟨some "Alpha", none, some "1", none, none, none, none⟩] \ {"Alpha"}
        ∧ List.Sorted (· < ·) (process_games_new_updated
            [⟨some "Beta", none, some "2", none, none, none, none⟩,
             ⟨some "Alpha", none, some "1", none, none, none, none⟩]
            ⟨{"Alpha"}, ∅, ∅, some 5, some 6, none⟩).announcedNew) :=
  ⟨by decide,
   c1_new_announce_eq_diff_sorted
     [⟨some "Beta", none, some "2", none, none, none, none⟩,
      ⟨some "Alpha", none, some "1", none, none, none, none⟩]
     ⟨{"Alpha"}, ∅, ∅, some 5, some 6, none⟩ (by decide)⟩

/-- C2: when both feed channels are configured, a key lying in both the
computed new-diff and the computed updated-diff of one cycle is
announced on the NEW feed, is absent from the UPDATED feed output of
that cycle, and after the commit both seen_new and seen_update contain
it. -/
theorem c2_cross_feature_suppression (games : List Game) (st : MonitorState)
    (k : String)
    (hn : chanTruthy st.channel_id_new = true)
    (hu : chanTruthy st.channel_id_update = true)
    (hk1 : k ∈ newDiff games st) (hk2 : k ∈ updateDiff games st) :
    k ∈ (process_games_new_updated games st).announcedNew
      ∧ k ∉ (process_games_new_updated games st).announcedUpdated
      ∧ k ∈ (process_games_new_updated games st).state.seen_new
      ∧ k ∈ (process_games_new_updated games st).state.seen_update := by
  have hck : k ∈ currentKeys games := newDiff_subset_currentKeys hk1
  have hg : games.isEmpty = false := games_isEmpty_eq_false hck
  rw [process_games_eq_of_ne_nil hg]
  dsimp only
  refine ⟨?_, ?_, ?_, ?_⟩
  · rw [if_pos ⟨hn, ⟨k, hk1⟩⟩]
    refine List.mem_filter.mpr ⟨?_, mappingGet_isSome hck⟩
    simpa [sortedKeys, Finset.mem_sort] using hk1
  · rw [if_pos ⟨hu, ⟨k, hk2⟩⟩]
    intro hmem
    have hp := (List.mem_filter.mp hmem).2
    simp only [Bool.and_eq_true, Bool.not_eq_true', decide_eq_false_iff_not] at hp
    exact hp.1 hk1
  · rw [if_pos ⟨k, hk1⟩]
    exact Finset.mem_union_right _ hk1
  · rw [if_pos ⟨k, hk2⟩]
    exact Finset.mem_union_right _ hk2

/-- Witness for C2 at a concrete input: a key unseen by both feeds with
both channels configured. -/
theorem c2_witness :
    chanTruthy (some 5 : Option Nat) = true
      ∧ chanTruthy (some 6 : Option Nat) = true
      ∧ "Beta" ∈ newDiff [⟨some "Beta", none, some "2", none, none, none, none⟩]
          ⟨∅, ∅, ∅, some 5, some 6, none⟩
      ∧ "Beta" ∈ updateDiff [⟨some "Beta", none, some "2", none, none, none, none⟩]
          ⟨∅, ∅, ∅, some 5, some 6, none⟩
      ∧ ("Beta" ∈ (process_games_new_updated
            [⟨some "Beta", none, some "2", none, none, none, none⟩]
            ⟨∅, ∅, ∅, some 5, some 6, none⟩).announcedNew
        ∧ "Beta" ∉ (process_games_new_updated
            [⟨some "Beta", none, some "2", none, none, none, none⟩]
            ⟨∅, ∅, ∅, some 5, some 6, none⟩).announcedUpdated
        ∧ "Beta" ∈ (process_games_new_updated
            [⟨some "Beta", none, some "2", none, none, none, none⟩]
            ⟨∅, ∅, ∅, some 5, some 6, none⟩).state.seen_new
        ∧ "Beta" ∈ (process_games_new_updated
            [⟨some "Beta", none, some "2", none, none, none, none⟩]
            ⟨∅, ∅, ∅, some 5, some 6, none⟩).state.seen_update) :=
  ⟨by decide, by decide, by decide, by decide,
   c2_cross_feature_suppression
     [⟨some "Beta", none, some "2", none, none, none, none⟩]
     ⟨∅, ∅, ∅, some 5, some 6, none⟩ "Beta"
     (by decide) (by decide) (by decide) (by decide)⟩

/-- C3: a cycle whose feature channel is untruthy (unset) with a
non-empty computed diff makes zero delivery attempts for that feature,
yet merges the diff into the seen-set and calls save_config; shown for
all three features: NEW games, UPDATED games and fixes. -/
theorem c3_unset_destination_still_commits (games : List Game)
    (st : MonitorState) (fixes : List FixItem) (st2 : MonitorState)
    (games2 : List Game) (st3 : MonitorState)
    (h1 : chanTruthy st.channel_id_new = false)
    (h2 : (newDiff games st).Nonempty)
    (h3 : chanTruthy st2.channel_id_fixed = false)
    (h4 : (fixedDiff fixes st2).Nonempty)
    (h5 : chanTruthy st3.channel_id_update = false)
    (h6 : (updateDiff games2 st3).Nonempty) :
    (process_games_new_updated games st).announcedNew = []
      ∧ (process_games_new_updated games st).state.seen_new
          = st.seen_new ∪ newDiff games st
      ∧ (process_games_new_updated games st).saved = true
      ∧ (process_fixes fixes st2).announcedFixed = []
      ∧ (process_fixes fixes st2).state.seen_fixed
          = st2.seen_fixed ∪ fixedDiff fixes st2
      ∧ (process_fixes fixes st2).saved = true
      ∧ (process_games_new_updated games2 st3).announcedUpdated = []
      ∧ (process_games_new_updated games2 st3).state.seen_update
          = st3.seen_update ∪ updateDiff games2 st3
      ∧ (process_games_new_updated games2 st3).saved = true := by
  obtain ⟨k, hk⟩ := h2
  have hg : games.isEmpty = false :=
    games_isEmpty_eq_false (newDiff_subset_currentKeys hk)
  obtain ⟨k3, hk3⟩ := h6
  have hg3 : games2.isEmpty = false :=
    games_isEmpty_eq_false (updateDiff_subset_currentKeys hk3)
  rw [process_games_eq_of_ne_nil hg, process_fixes_eq_of_nonempty h4,
    process_games_eq_of_ne_nil hg3]
  dsimp only
  refine ⟨?_, ?_, ?_, ?_, rfl, rfl, ?_, ?_, ?_⟩
  · rw [if_neg (fun hc => by rw [h1] at hc; exact Bool.false_ne_true hc.1)]
  · rw [if_pos ⟨k, hk⟩]
  · exact decide_eq_true (Or.inl ⟨k, hk⟩)
  · rw [if_neg (fun hc => by rw [h3] at hc; exact Bool.false_ne_true hc.1)]
  · rw [if_neg (fun hc => by rw [h5] at hc; exact Bool.false_ne_true hc.1)]
  · rw [if_pos ⟨k3, hk3⟩]
  · exact decide_eq_true (Or.inr ⟨k3, hk3⟩)

/-- Witness for C3 at a concrete input: NEW, UPDATED and fixed channels
unset in the respective states, with one unseen game, one unseen fix
and one not-yet-updated game. -/
theorem c3_witness :
    chanTruthy (MonitorState.mk ∅ ∅ ∅ none (some 6) none).channel_id_new = false
      ∧ (newDiff [⟨some "Beta", none, some "2", none, none, none, none⟩]
          ⟨∅, ∅, ∅, none, some 6, none⟩).Nonempty
      ∧ chanTruthy (MonitorState.mk ∅ ∅ ∅ none (some 6) none).channel_id_fixed = false
      ∧ (fixedDiff [⟨some "Fix1", none, some "d", none, some "1 MB"⟩]
          ⟨∅, ∅, ∅, none, some 6, none⟩).Nonempty
      ∧ chanTruthy (MonitorState.mk ∅ ∅ ∅ (some 1) none none).channel_id_update = false
      ∧ (updateDiff [⟨some "Gamma", none, some "3", none, none, none, none⟩]
          ⟨∅, ∅, ∅, some 1, none, none⟩).Nonempty
      ∧ ((process_games_new_updated
            [⟨some "Beta", none, some "2", none, none, none, none⟩]
            ⟨∅, ∅, ∅, none, some 6, none⟩).announcedNew = []
        ∧ (process_games_new_updated
            [⟨some "Beta", none, some "2", none, none, none, none⟩]
            ⟨∅, ∅, ∅, none, some 6, none⟩).state.seen_new
            = ∅ ∪ newDiff [⟨some "Beta", none, some "2", none, none, none, none⟩]
                ⟨∅, ∅, ∅, none, some 6, none⟩
        ∧ (process_games_new_updated
            [⟨some "Beta", none, some "2", none, none, none, none⟩]
            ⟨∅, ∅, ∅, none, some 6, none⟩).saved = true
        ∧ (process_fixes [⟨some "Fix1", none, some "d", none, some "1 MB"⟩]
            ⟨∅, ∅, ∅, none, some 6, none⟩).announcedFixed = []
        ∧ (process_fixes [⟨some "Fix1", none, some "d", none, some "1 MB"⟩]
            ⟨∅, ∅, ∅, none, some 6, none⟩).state.seen_fixed
            = ∅ ∪ fixedDiff [⟨some "Fix1", none, some "d", none, some "1 MB"⟩]
                ⟨∅, ∅, ∅, none, some 6, none⟩
        ∧ (process_fixes [⟨some "Fix1", none, some "d", none, some "1 MB"⟩]
            ⟨∅, ∅, ∅, none, some 6, none⟩).saved = true
        ∧ (process_games_new_updated
            [⟨some "Gamma", none, some "3", none, none, none, none⟩]
            ⟨∅, ∅, ∅, some 1, none, none⟩).announcedUpdated = []
        ∧ (process_games_new_updated
            [⟨some "Gamma", none, some "3", none, none, none, none⟩]
            ⟨∅, ∅, ∅, some 1, none, none⟩).state.seen_update
            = ∅ ∪ updateDiff [⟨some "Gamma", none, some "3", none, none, none, none⟩]
                ⟨∅, ∅, ∅, some 1, none, none⟩
        ∧ (process_games_new_updated
            [⟨some "Gamma", none, some "3", none, none, none, none⟩]
            ⟨∅, ∅, ∅, some 1, none, none⟩).saved = true) :=
  ⟨by decide, by decide, by decide, by decide, by decide, by decide,
   c3_unset_destination_still_commits
     [⟨some "Beta", none, some "2", none, none, none, none⟩]
     ⟨∅, ∅, ∅, none, some 6, none⟩
     [⟨some "Fix1", none, some "d", none, some "1 MB"⟩]
     ⟨∅, ∅, ∅, none, some 6, none⟩
     [⟨some "Gamma", none, some "3", none, none, none, none⟩]
     ⟨∅, ∅, ∅, some 1, none, none⟩
     (by decide) (by decide) (by decide) (by decide) (by decide) (by decide)⟩

/-- C7: when the games fetch comes back Unavailable (any failure path:
non-200 status, non-list JSON or a raised exception — all of which
`fetch_games` collapses to the empty list) or the snapshot is empty,
the cycle announces nothing, leaves every seen-set and the channel
configuration exactly as they were, and performs no save; likewise for
a fixes cycle whose fetch yielded nothing. -/
theorem c7_unavailable_cycle_is_noop (o : FetchGamesOutcome)
    (st st2 : MonitorState) (h : fetch_games_result o = []) :
    process_games_new_updated (fetch_games_result o) st
        = ⟨[], [], st, false⟩
      ∧ process_fixes [] st2 = ⟨[], st2, false⟩ := by
  rw [h]
  exact ⟨rfl, rfl⟩

/-- Witness for C7 at a concrete input: a raised fetch exception. -/
theorem c7_witness :
    fetch_games_result .raised = []
      ∧ (process_games_new_updated (fetch_games_result .raised)
            ⟨{"A"}, {"B"}, ∅, some 1, none, none⟩
          = ⟨[], [], ⟨{"A"}, {"B"}, ∅, some 1, none, none⟩, false⟩
        ∧ process_fixes [] ⟨∅, ∅, {"F"}, none, none, some 9⟩
          = ⟨[], ⟨∅, ∅, {"F"}, none, none, some 9⟩, false⟩) :=
  ⟨rfl, c7_unavailable_cycle_is_noop .raised
    ⟨{"A"}, {"B"}, ∅, some 1, none, none⟩
    ⟨∅, ∅, {"F"}, none, none, some 9⟩ rfl⟩

/-- C6: any sequence of manual peek invocations (newly-added-games peek
and fixes peek) with no intervening automatic commit leaves the monitor
state — in particular seen_new, seen_update and seen_fixed — identical,
and performs no persistence write. -/
theorem c6_peeks_read_only (calls : List PeekCall) (st : MonitorState) :
    peekSeqState calls st = (st, false) := by
  induction calls with
  | nil => rfl
  | cons c cs ih =>
    cases c with
    | newgamePeek games => simp [peekSeqState, runPeek, ih]
    | fixegamePeek fixes => simp [peekSeqState, runPeek, ih]

/-- C8: a fixes-page card block with neither a truthy file-name nor a
truthy href is skipped and yields no item, while a block with a truthy
file-name but no file-size div yields an item whose size field is the
empty string. -/
theorem c8_fix_block_skip_and_default_size (a b : Anchor)
    (ha1 : truthy (a.raw_name.map pyStrip) = false)
    (ha2 : truthy a.href = false)
    (hb1 : truthy (b.raw_name.map pyStrip) = true)
    (hb2 : b.size_text = none) :
    extractItem a = none
      ∧ ∃ e : FixEntry, extractItem b = some e ∧ e.size = "" := by
  constructor
  · simp [extractItem, ha1, ha2]
  · simp only [extractItem, hb1, hb2, Option.map_none, if_true]
    exact ⟨_, rfl, rfl⟩

/-- Witness for C8 at concrete inputs: a block with only a size div and
a block with a file name and a link but no size. -/
theorem c8_witness :
    truthy ((Anchor.mk none none (some "12 MB")).raw_name.map pyStrip) = false
      ∧ truthy (Anchor.mk none none (some "12 MB")).href = false
      ∧ truthy ((Anchor.mk (some "/f/a.zip") (some "Fix A.zip") none).raw_name.map pyStrip) = true
      ∧ (Anchor.mk (some "/f/a.zip") (some "Fix A.zip") none).size_text = none
      ∧ (extractItem ⟨none, none, some "12 MB"⟩ = none
        ∧ ∃ e : FixEntry,
            extractItem ⟨some "/f/a.zip", some "Fix A.zip", none⟩ = some e
              ∧ e.size = "") :=
  ⟨by decide, by decide, by decide, rfl,
   c8_fix_block_skip_and_default_size ⟨none, none, some "12 MB"⟩
     ⟨some "/f/a.zip", some "Fix A.zip", none⟩
     (by decide) (by decide) (by decide) rfl⟩

/-- The keys of the embeds a peek actually displays. -/
def displayedKeys (ms : List PeekMsg) : List String :=
  ms.filterMap (fun m =>
    match m with
    | .gameEmbed k => some k
    | _ => none)

theorem displayedKeys_append (xs ys : List PeekMsg) :
    displayedKeys (xs ++ ys) = displayedKeys xs ++ displayedKeys ys :=
  List.filterMap_append xs ys _

theorem displayedKeys_map_gameEmbed (l : List String) :
    displayedKeys (l.map PeekMsg.gameEmbed) = l := by
  induction l with
  | nil => rfl
  | cons x t ih => simpa [displayedKeys] using ih

/-- C10: on a non-empty snapshot with at least one unseen item, the
newly-added-games peek displays exactly the first 10 unseen keys in
snapshot order (hence at most 10), and when more than 10 unseen items
exist it additionally reports their total count, which is reported only
in that case. -/
theorem c10_newgame_caps_at_ten (games : List Game) (st : MonitorState)
    (hg : games.isEmpty = false)
    (hne : (newgame_keys games st).isEmpty = false) :
    displayedKeys (newgame_messages games st) = (newgame_keys games st).take 10
      ∧ (displayedKeys (newgame_messages games st)).length ≤ 10
      ∧ (10 < (newgame_keys games st).length →
          PeekMsg.overflowNote (newgame_keys games st).length
            ∈ newgame_messages games st)
      ∧ ((newgame_keys games st).length ≤ 10 →
          ∀ n, PeekMsg.overflowNote n ∉ newgame_messages games st) := by
  have hmsg : newgame_messages games st =
      ((newgame_keys games st).take 10).map PeekMsg.gameEmbed
        ++ (if 10 < (newgame_keys games st).length then
              [.overflowNote (newgame_keys games st).length]
            else []) := by
    rw [newgame_messages, if_neg (by simp [hg]), if_neg (by simp [hne])]
  have hdisp : displayedKeys (newgame_messages games st)
      = (newgame_keys games st).take 10 := by
    rw [hmsg, displayedKeys_append, displayedKeys_map_gameEmbed]
    by_cases hlen : 10 < (newgame_keys games st).length
    · rw [if_pos hlen]
      simp [displayedKeys]
    · rw [if_neg hlen]
      simp [displayedKeys]
  refine ⟨hdisp, ?_, ?_, ?_⟩
  · rw [hdisp]
    simp [Nat.min_le_left]
  · intro hlen
    rw [hmsg, if_pos hlen]
    exact List.mem_append_right _ (List.mem_singleton.mpr rfl)
  · intro hlen n hmem
    rw [hmsg, if_neg (Nat.not_lt.mpr hlen)] at hmem
    rcases List.mem_append.mp hmem with hmem | hmem
    · rcases List.mem_map.mp hmem with ⟨k, _, hk⟩
      exact PeekMsg.noConfusion hk
    · exact List.not_mem_nil _ hmem

/-- Games used by the C10 witness: eleven distinct unseen titles. -/
def peekGames : List Game :=
  ["G01", "G02", "G03", "G04", "G05", "G06", "G07", "G08", "G09", "G10",
   "G11"].map (fun t => ⟨some t, none, none, none, none, none, none⟩)

/-- Witness for C10 at a concrete input: eleven unseen games. -/
theorem c10_witness :
    peekGames.isEmpty = false
      ∧ (newgame_keys peekGames ⟨∅, ∅, ∅, none, none, none⟩).isEmpty = false
      ∧ (displayedKeys (newgame_messages peekGames ⟨∅, ∅, ∅, none, none, none⟩)
            = (newgame_keys peekGames ⟨∅, ∅, ∅, none, none, none⟩).take 10
        ∧ (displayedKeys
            (newgame_messages peekGames ⟨∅, ∅, ∅, none, none, none⟩)).length ≤ 10
        ∧ (10 < (newgame_keys peekGames ⟨∅, ∅, ∅, none, none, none⟩).length →
            PeekMsg.overflowNote
                (newgame_keys peekGames ⟨∅, ∅, ∅, none, none, none⟩).length
              ∈ newgame_messages peekGames ⟨∅, ∅, ∅, none, none, none⟩)
        ∧ ((newgame_keys peekGames ⟨∅, ∅, ∅, none, none, none⟩).length ≤ 10 →
            ∀ n, PeekMsg.overflowNote n
              ∉ newgame_messages peekGames ⟨∅, ∅, ∅, none, none, none⟩)) :=
  ⟨by decide, by decide,
   c10_newgame_caps_at_ten peekGames ⟨∅, ∅, ∅, none, none, none⟩
     (by decide) (by decide)⟩

theorem filter_isSend_page_edits (rest : List ListEmbed) :
    ((rest.map (fun e => [ListAction.sleep 2, ListAction.editEmbed e])).flatten.filter
      ListAction.isSend) = [] := by
  induction rest with
  | nil => rfl
  | cons a t ih => simp [List.filter_append, ih, ListAction.isSend]

/-- C9: a manual bulk-listing invocation whose content spans more than
one page sends exactly one new message, carrying the first page, and
delivers every subsequent page by editing that message, each edit
preceded by the fixed 2 second delay. -/
theorem c9_gamelist_one_send_then_edits (games : List Game)
    (h : 1 < (gamelistEmbeds games).length) :
    ∃ e0 rest, gamelistEmbeds games = e0 :: rest ∧ rest ≠ []
      ∧ gamelist_actions games
          = ListAction.sendEmbed e0
              :: (rest.map
                  (fun e => [ListAction.sleep 2, ListAction.editEmbed e])).flatten
      ∧ ((gamelist_actions games).filter ListAction.isSend).length = 1 := by
  have hg : games.isEmpty = false := by
    cases games with
    | nil => exact absurd h (by decide)
    | cons a t => rfl
  cases hemb : gamelistEmbeds games with
  | nil => rw [hemb] at h; exact absurd h (by decide)
  | cons e0 rest =>
    have hact : gamelist_actions games
        = ListAction.sendEmbed e0
            :: (rest.map
                (fun e => [ListAction.sleep 2, ListAction.editEmbed e])).flatten := by
      rw [gamelist_actions, if_neg (by simp [hg]), hemb]
    refine ⟨e0, rest, rfl, ?_, hact, ?_⟩
    · intro hrest
      rw [hemb, hrest] at h
      simp at h
    · rw [hact]
      simp [List.filter_cons, ListAction.isSend, filter_isSend_page_edits rest]

/-- Games used by the C9 witness: 81 entries, giving two pages of 80
and 1 lines. -/
def manyGames : List Game :=
  List.replicate 81 ⟨some "Alpha", none, some "1", none, none, none, none⟩

/-- Witness for C9 at a concrete input: an 81-game snapshot. -/
theorem c9_witness :
    1 < (gamelistEmbeds manyGames).length
      ∧ ∃ e0 rest, gamelistEmbeds manyGames = e0 :: rest ∧ rest ≠ []
        ∧ gamelist_actions manyGames
            = ListAction.sendEmbed e0
                :: (rest.map
                    (fun e => [ListAction.sleep 2, ListAction.editEmbed e])).flatten
        ∧ ((gamelist_actions manyGames).filter ListAction.isSend).length = 1 :=
  ⟨by decide, c9_gamelist_one_send_then_edits manyGames (by decide)⟩

/-- C4 counterexample: in the status domain the cycle body has no
boundary handler — with one configured destination whose channel
resolves but whose `channel.send` raises Forbidden, the scheduled cycle
body of `status_loop` propagates the error instead of returning
normally. -/
theorem c4_counterexample :
    status_loop_run
        [⟨true, .page [], .error .forbidden, fun _ => .ok, .page [], .ok ()⟩]
        = .error .forbidden
      ∧ status_loop_run
          [⟨true, .page [], .error .forbidden, fun _ => .ok, .page [], .ok ()⟩]
        ≠ .ok () :=
  ⟨rfl, fun hcontra => Except.noConfusion hcontra⟩

/-- C4 (amended): the game-domain cycle body (`monitor_loop`) catches
every error from fetching, diffing, notifying or committing, so no
error propagates and the loop continues; the status-domain cycle body
(`status_loop`) has no such handler, and any error escaping
`send_visual_status` propagates out of the cycle body. -/
theorem c4_amended_game_catches_status_propagates (r : Except PyErr Unit)
    (env : VisualEnv) (envs : List VisualEnv) (e : PyErr)
    (h : (send_visual_status_run env).1 = .error e) :
    monitor_loop_body r = .ok ()
      ∧ status_loop_run (env :: envs) = .error e := by
  constructor
  · cases r <;> rfl
  · rw [status_loop_run, h]

/-- Witness for the amended C4 at a concrete input. -/
theorem c4_amended_witness :
    (send_visual_status_run
        ⟨true, .page ["ok"], .error (.httpException 500), fun _ => .ok,
         .page [], .ok ()⟩).1 = .error (.httpException 500)
      ∧ (monitor_loop_body (.error .forbidden) = .ok ()
        ∧ status_loop_run
            [⟨true, .page ["ok"], .error (.httpException 500), fun _ => .ok,
              .page [], .ok ()⟩]
          = .error (.httpException 500)) :=
  ⟨rfl,
   c4_amended_game_catches_status_propagates (.error .forbidden)
     ⟨true, .page ["ok"], .error (.httpException 500), fun _ => .ok,
      .page [], .ok ()⟩ [] (.httpException 500) rfl⟩

/-- C5 counterexample: an automatic status cycle whose fetch raised an
exception posts the failure text to the chat surface — the embed
description of the message sent to the status channel is exactly the
rendered error string. -/
theorem c5_counterexample :
    (send_visual_status_run
        ⟨true, .raised "timeout", .ok (), fun _ => .forbiddenCaught,
         .page [], .ok ()⟩).2
      = ["❌ Error fetching status: timeout"] := rfl

/-- C5 (amended): automatic game-domain cycles report fetch failures to
no chat surface (a failed fetch yields an empty cycle with no messages),
but the automatic status cycle renders the fetch-failure text into the
embed description it posts to the status channel. -/
theorem c5_amended_failure_text_reaches_status_chat (st : MonitorState)
    (env : VisualEnv) (m : String)
    (h1 : env.channelFound = true)
    (h2 : env.fetch1 = .raised m)
    (h3 : env.sendResult = .ok ()) :
    (process_games_new_updated [] st).announcedNew = []
      ∧ (process_games_new_updated [] st).announcedUpdated = []
      ∧ (process_fixes [] st).announcedFixed = []
      ∧ ("❌ Error fetching status: " ++ m) ∈ (send_visual_status_run env).2 := by
  refine ⟨rfl, rfl, rfl, ?_⟩
  have hmsg : fetch_status env.fetch1 = "❌ Error fetching status: " ++ m := by
    rw [h2]
    rfl
  rw [send_visual_status_run, if_neg (by simp [h1]), h3]
  cases hcd : countdown env.editAt CHECK_INTERVAL with
  | error e => simp [hmsg]
  | ok b =>
    cases b with
    | false => simp [hmsg]
    | true =>
      cases hfe : env.finalEditResult with
      | error e2 => simp [hmsg]
      | ok u => simp [hmsg]

/-- Witness for the amended C5 at a concrete input. -/
theorem c5_amended_witness :
    (VisualEnv.mk true (.raised "boom") (.ok ())
        (fun _ => .forbiddenCaught) (.page []) (.ok ())).channelFound = true
      ∧ (VisualEnv.mk true (.raised "boom") (.ok ())
          (fun _ => .forbiddenCaught) (.page []) (.ok ())).fetch1 = .raised "boom"
      ∧ (VisualEnv.mk true (.raised "boom") (.ok ())
          (fun _ => .forbiddenCaught) (.page []) (.ok ())).sendResult = .ok ()
      ∧ ((process_games_new_updated [] ⟨∅, ∅, ∅, some 1, none, none⟩).announcedNew = []
        ∧ (process_games_new_updated [] ⟨∅, ∅, ∅, some 1, none, none⟩).announcedUpdated = []
        ∧ (process_fixes [] ⟨∅, ∅, ∅, some 1, none, none⟩).announcedFixed = []
        ∧ ("❌ Error fetching status: " ++ "boom")
            ∈ (send_visual_status_run
                ⟨true, .raised "boom", .ok (), fun _ => .forbiddenCaught,
                 .page [], .ok ()⟩).2) :=
  ⟨rfl, rfl, rfl,
   c5_amended_failure_text_reaches_status_chat ⟨∅, ∅, ∅, some 1, none, none⟩
     ⟨true, .raised "boom", .ok (), fun _ => .forbiddenCaught, .page [], .ok ()⟩
     "boom" rfl rfl rfl⟩

end Bot
